import Mathlib

/-!
Verification development for the insights-results-aggregator ingestion
pipeline (package `consumer`) and the HTTP parameter-validation helpers
(package `server`).

The Go sources are embedded shallowly:

* JSON payloads are modelled by an inductive `Json` tree; raw bytes that do
  not parse as JSON at all are the `Payload.malformed` case.
* `json.Unmarshal` into the `incomingMessage` struct (three optional pointer
  fields tagged `OrgID`, `ClusterName`, `Report`) is `unmarshalIncoming`.
* The external collaborators (sarama broker client, storage sink, response
  writer) are modelled as explicit behaviour records, and the functions under
  verification return traces of the calls they make on those collaborators.
-/

set_option autoImplicit false

/-- Organization identifier. In Go this is the integer newtype `types.OrgID`
(the `types` package is an external dependency of the embedded files); at the
JSON level it is an integer. -/
abbrev OrgID := Int

/-- A JSON value, as produced by a successful parse of the payload bytes. -/
inductive Json where
  | null
  | bool (b : Bool)
  | num (n : Int)
  | str (s : String)
  | arr (elems : List Json)
  | obj (fields : List (String × Json))

/-- A message payload handed to `parseMessage`: either bytes that are not
syntactically valid JSON, or a parsed JSON value. -/
inductive Payload where
  | malformed
  | json (j : Json)

/-- Errors produced by `json.Unmarshal`: a syntax error for bytes that are not
JSON, or a type error (Go `UnmarshalTypeError`) naming the target that could
not accept the value. -/
inductive UnmarshalError where
  | syntaxError
  | typeError (target : String)
  deriving DecidableEq

/-- The `incomingMessage` struct of `consumer.go`: three pointer fields with
JSON tags `OrgID`, `ClusterName` and `Report`; a `none` field is a nil
pointer, i.e. the key was absent or bound to JSON null. -/
structure incomingMessage where
  Organization : Option OrgID
  ClusterName : Option String
  Report : Option String
  deriving DecidableEq

/-- The zero value of `incomingMessage`: all pointers nil. -/
def emptyIncoming : incomingMessage :=
  { Organization := none, ClusterName := none, Report := none }

/-- Decoding of a single object entry into the `incomingMessage` struct,
following `encoding/json`: a key matching a field tag stores the value when it
has the expected type (null stores a nil pointer), and yields an
`UnmarshalTypeError` otherwise; keys matching no field are ignored.
(Go also matches field tags case insensitively as a fallback; the exact tags
suffice for the properties verified here.) -/
def applyField (m : incomingMessage) (kv : String × Json) : Except UnmarshalError incomingMessage :=
  if kv.1 = "OrgID" then
    match kv.2 with
    | Json.null => Except.ok { m with Organization := none }
    | Json.num n => Except.ok { m with Organization := some n }
    | _ => Except.error (UnmarshalError.typeError ("OrgID"))
  else if kv.1 = "ClusterName" then
    match kv.2 with
    | Json.null => Except.ok { m with ClusterName := none }
    | Json.str s => Except.ok { m with ClusterName := some s }
    | _ => Except.error (UnmarshalError.typeError ("ClusterName"))
  else if kv.1 = "Report" then
    match kv.2 with
    | Json.null => Except.ok { m with Report := none }
    | Json.str s => Except.ok { m with Report := some s }
    | _ => Except.error (UnmarshalError.typeError ("Report"))
  else
    Except.ok m

/-- Left-to-right processing of the entries of a JSON object, stopping at the
first decoding error, as the `encoding/json` object loop does (the error Go
reports is the first one saved). -/
def unmarshalFields : incomingMessage → List (String × Json) → Except UnmarshalError incomingMessage
  | m, [] => Except.ok m
  | m, kv :: rest =>
    match applyField m kv with
    | Except.error e => Except.error e
    | Except.ok m2 => unmarshalFields m2 rest

/-- Model of `json.Unmarshal(messageValue, &deserialized)` for the
`incomingMessage` struct. Malformed bytes give a syntax error; a JSON object
is decoded entry by entry; any other top-level value gives a type error,
except the JSON literal `null`, which `encoding/json` documents as leaving the
target untouched and reporting no error. -/
def unmarshalIncoming : Payload → Except UnmarshalError incomingMessage
  | Payload.malformed => Except.error UnmarshalError.syntaxError
  | Payload.json (Json.obj fields) => unmarshalFields emptyIncoming fields
  | Payload.json Json.null => Except.ok emptyIncoming
  | Payload.json _ => Except.error (UnmarshalError.typeError ("incomingMessage"))

/-- Errors visible from `parseMessage` and `ProcessMessage`: an
`encoding/json` error, a `Missing required attribute <field>` validation
error (built with `errors.New` in the source), or an error from the storage
write. -/
inductive ConsumerError where
  | unmarshalError (e : UnmarshalError)
  | missingAttribute (field : String)
  | storageError (message : String)
  deriving DecidableEq

/-- Embedding of `parseMessage` from `consumer.go`: unmarshal the payload,
then check the three fields for presence in the fixed order `OrgID`,
`ClusterName`, `Report`, returning the first failure. -/
def parseMessage (messageValue : Payload) : Except ConsumerError (OrgID × String × String) :=
  match unmarshalIncoming messageValue with
  | Except.error err => Except.error (ConsumerError.unmarshalError err)
  | Except.ok deserialized =>
    match deserialized.Organization with
    | none => Except.error (ConsumerError.missingAttribute ("OrgID"))
    | some org =>
      match deserialized.ClusterName with
      | none => Except.error (ConsumerError.missingAttribute ("ClusterName"))
      | some cluster =>
        match deserialized.Report with
        | none => Except.error (ConsumerError.missingAttribute ("Report"))
        | some report => Except.ok (org, cluster, report)

/-- Behaviour of the storage sink: the result of
`Storage.WriteReportForCluster(orgID, clusterName, report)`; `none` is a
successful write, `some e` a storage error. -/
structure StorageModel where
  writeResult : OrgID → String → String → Option String

/-- One call to the persist operation of the storage sink, with the three
arguments passed. -/
structure PersistCall where
  orgID : OrgID
  clusterName : String
  report : String
  deriving DecidableEq

/-- Embedding of `Impl.ProcessMessage`: parse the payload, return the parse
error without touching storage on failure, otherwise call
`WriteReportForCluster` once with the decoded values and propagate a storage
error. The first component is the trace of persist calls made. -/
def ProcessMessage (st : StorageModel) (msgValue : Payload) :
    List PersistCall × Option ConsumerError :=
  match parseMessage msgValue with
  | Except.error e => ([], some e)
  | Except.ok (orgID, clusterName, report) =>
    match st.writeResult orgID clusterName report with
    | some e => ([{ orgID := orgID, clusterName := clusterName, report := report }],
        some (ConsumerError.storageError e))
    | none => ([{ orgID := orgID, clusterName := clusterName, report := report }], none)

/-- A storage sink that accepts every write. -/
def stAccept : StorageModel := { writeResult := fun _ _ _ => none }

/-- Behaviour of the sarama broker client as seen by `New`: the result of
`sarama.NewConsumer`, of `Consumer.Partitions(topic)`, and of
`Consumer.ConsumePartition(topic, partition, OffsetNewest)` for each
partition id. -/
structure BrokerBehavior where
  newConsumerError : Option String
  partitionsResult : Except String (List Int)
  consumePartitionError : Int → Option String

/-- Outcome of `New`: a constructed consumer subscribed to the chosen
partition, an error return (the Go `return nil, err` branches), or a runtime
panic. -/
inductive NewOutcome where
  | ok (subscribedPartition : Int)
  | err (message : String)
  | panicked
  deriving DecidableEq

/-- Whether the outcome of `New` is one of its error-return branches. -/
def NewOutcome.isErrorReturn : NewOutcome → Bool
  | NewOutcome.err _ => true
  | _ => false

/-- Embedding of `New` from `consumer.go`: connect, enumerate the partitions
of the topic, then subscribe to `partitions[0]`. The indexing expression
`partitions[0]` is unguarded in the source, so an empty partition list with no
error from the broker client is a runtime panic (index out of range), not an
error return. -/
def New (b : BrokerBehavior) : NewOutcome :=
  match b.newConsumerError with
  | some e => NewOutcome.err e
  | none =>
    match b.partitionsResult with
    | Except.error e => NewOutcome.err e
    | Except.ok partitions =>
      match partitions with
      | [] => NewOutcome.panicked
      | p0 :: _ =>
        match b.consumePartitionError p0 with
        | some e => NewOutcome.err e
        | none => NewOutcome.ok p0

/-- Broker behaviour whose partition enumeration succeeds with an empty
partition list. -/
def brokerEmptyPartitions : BrokerBehavior :=
  { newConsumerError := none
    partitionsResult := Except.ok []
    consumePartitionError := fun _ => none }

/-- Broker behaviour whose partition enumeration fails with an error. -/
def brokerPartitionsError : BrokerBehavior :=
  { newConsumerError := none
    partitionsResult := Except.error ("topic metadata error")
    consumePartitionError := fun _ => none }

/-- One event observed on the partition-consumer message channel: a delivered
message payload, or the channel being closed after a transport failure (a
receive from a closed channel yields a nil message pointer). -/
inductive StreamEvent where
  | msg (payload : Payload)
  | closed

/-- Observable state accumulated by the ingestion loop: processing errors
logged by `Start`, persist calls made, and the `consumed` counter. -/
structure LoopState where
  loggedErrors : List ConsumerError
  persists : List PersistCall
  consumed : Nat
  deriving DecidableEq

/-- Outcome of running `Start` against a finite prefix of channel events:
still blocked waiting for the next message, panicked (the nil message from a
closed channel is dereferenced by `ProcessMessage` when it logs the offset),
or an actual `return` from `Start`. -/
inductive StartOutcome where
  | running (s : LoopState)
  | panicked (s : LoopState)
  | returned (result : Option ConsumerError) (s : LoopState)
  deriving DecidableEq

/-- Whether the outcome is an actual return from `Start`. -/
def StartOutcome.isReturned : StartOutcome → Bool
  | StartOutcome.returned _ _ => true
  | _ => false

/-- One iteration of the loop body of `Start` on a delivered message: process
it, log the error if there is one, and increment `consumed`. -/
def stepState (st : StorageModel) (s : LoopState) (p : Payload) : LoopState :=
  { loggedErrors := s.loggedErrors ++ ((ProcessMessage st p).2).toList
    persists := s.persists ++ (ProcessMessage st p).1
    consumed := s.consumed + 1 }

/-- The loop of `Start` from a given state over a finite prefix of channel
events. The source loop `for { msg := <-...; ... }` has no break and no
return statement, so no event produces the `returned` outcome. -/
def StartFrom (st : StorageModel) : LoopState → List StreamEvent → StartOutcome
  | s, [] => StartOutcome.running s
  | s, StreamEvent.closed :: _ => StartOutcome.panicked s
  | s, StreamEvent.msg p :: rest => StartFrom st (stepState st s p) rest

/-- Embedding of `Impl.Start` from `consumer.go`, run against a finite prefix
of the message-channel events. -/
def Start (st : StorageModel) (events : List StreamEvent) : StartOutcome :=
  StartFrom st { loggedErrors := [], persists := [], consumed := 0 } events

/-- Behaviour of the two `Close` calls available to `Impl.Close`: the result
of `PartitionConsumer.Close()` and of `Consumer.Close()`. -/
structure CloseBehavior where
  partitionConsumerCloseError : Option String
  consumerCloseError : Option String

/-- A resource released by `Impl.Close`. -/
inductive CloseTarget where
  | partitionConsumer
  | consumerConnection
  deriving DecidableEq

/-- Embedding of `Impl.Close` from `consumer.go`: close the partition
consumer; if that fails return its error at once, otherwise close the broker
connection and return its result. The first component is the trace of close
calls attempted, in order. -/
def Close (b : CloseBehavior) : List CloseTarget × Option String :=
  match b.partitionConsumerCloseError with
  | some e => ([CloseTarget.partitionConsumer], some e)
  | none =>
    ([CloseTarget.partitionConsumer, CloseTarget.consumerConnection], b.consumerCloseError)

/-- A close behaviour whose subscription close fails while the connection
close would also fail if it were attempted. -/
def closeBehaviorFailingSub : CloseBehavior :=
  { partitionConsumerCloseError := some ("subscription close failed")
    consumerCloseError := some ("connection close failed") }

/-- The dynamic value stored in the `paramValue interface\x7b\x7d` field of
`RouterParsingError`: `GetRouterIntParam` stores the raw string,
`GetRouterPositiveIntParam` stores the parsed int64. -/
inductive ParamValue where
  | str (s : String)
  | int (n : Int)
  deriving DecidableEq

/-- Rendering of a `ParamValue` by the `%v` verb of `fmt.Sprintf`. -/
def ParamValue.render : ParamValue → String
  | ParamValue.str s => s
  | ParamValue.int n => toString n

/-- The two error types of the router helpers: `RouterMissingParamError` and
`RouterParsingError`. -/
inductive RouterError where
  | missingParam (paramName : String)
  | parsingError (paramName : String) (paramValue : ParamValue) (errString : String)
  deriving DecidableEq

/-- The `Error()` strings of the two router error types. -/
def RouterError.message : RouterError → String
  | RouterError.missingParam p => "missing param " ++ p
  | RouterError.parsingError p v e =>
      "Error during parsing param " ++ p ++ " with value " ++ v.render ++ ". Error: " ++ e

/-- Lookup of a path parameter in the `mux.Vars(request)` map, modelled as an
association list with the first binding of a key winning. -/
def lookupVar : List (String × String) → String → Option String
  | [], _ => none
  | (k, v) :: rest, name => if k = name then some v else lookupVar rest name

/-- Embedding of `GetRouterParam`: look the parameter up, failing with
`RouterMissingParamError` when it is absent. -/
def GetRouterParam (vars : List (String × String)) (paramName : String) :
    Except RouterError String :=
  match lookupVar vars paramName with
  | none => Except.error (RouterError.missingParam paramName)
  | some value => Except.ok value

/-- Value of a nonempty list of decimal digit characters; `none` when the list
is empty or holds a non-digit. -/
def digitsValue : List Char → Option Nat
  | [] => none
  | cs =>
    if cs.all Char.isDigit then
      some (cs.foldl (fun acc c => acc * 10 + (c.toNat - 48)) 0)
    else
      none

/-- Model of `strconv.ParseInt(value, 10, 64)`: an optional sign followed by
at least one decimal digit, with the result required to fit in a signed
64-bit integer; `none` stands for a non-nil error (Go also returns a clamped
value on range errors, which the caller discards on the error branch). -/
def parseInt64 (s : String) : Option Int :=
  let signed : Bool × List Char :=
    match s.toList with
    | '-' :: rest => (true, rest)
    | '+' :: rest => (false, rest)
    | cs => (false, cs)
  match digitsValue signed.2 with
  | none => none
  | some n =>
    let value : Int := if signed.1 then -(n : Int) else (n : Int)
    if value < -(2 ^ 63) || 2 ^ 63 - 1 < value then none else some value

/-- Embedding of `GetRouterIntParam`: `GetRouterParam`, then a base-10 64-bit
parse, failing with a `RouterParsingError` holding the raw string and the
reason `integer expected`. -/
def GetRouterIntParam (vars : List (String × String)) (paramName : String) :
    Except RouterError Int :=
  match GetRouterParam vars paramName with
  | Except.error e => Except.error e
  | Except.ok value =>
    match parseInt64 value with
    | none =>
        Except.error (RouterError.parsingError paramName (ParamValue.str value)
          ("integer expected"))
    | some intValue => Except.ok intValue

/-- Embedding of `GetRouterPositiveIntParam`: `GetRouterIntParam`, then a
positivity check, failing with a `RouterParsingError` holding the parsed
int64 and the reason `positive integer expected`. -/
def GetRouterPositiveIntParam (vars : List (String × String)) (paramName : String) :
    Except RouterError Int :=
  match GetRouterIntParam vars paramName with
  | Except.error e => Except.error e
  | Except.ok value =>
    if value ≤ 0 then
      Except.error (RouterError.parsingError paramName (ParamValue.int value)
        ("positive integer expected"))
    else
      Except.ok value

/-- Hexadecimal digit, as accepted by the `xtob` helper of `github.com/google/uuid`. -/
def isHexDigit (c : Char) : Bool :=
  c.isDigit || ('a' ≤ c && c ≤ 'f') || ('A' ≤ c && c ≤ 'F')

/-- The canonical 36-character UUID layout: dashes at offsets 8, 13, 18, 23
and hexadecimal digits everywhere else. -/
def uuidCanonical (cs : List Char) : Bool :=
  cs.length == 36 &&
    (List.range 36).all (fun i =>
      if i == 8 || i == 13 || i == 18 || i == 23 then
        cs.getD i ' ' == '-'
      else
        isHexDigit (cs.getD i ' '))

/-- Model of `uuid.Parse` from `github.com/google/uuid` succeeding: canonical
form at length 36; a case-insensitive `urn:uuid:` prefix before a canonical
body at length 45; at length 38 the first character is stripped and the next
36 must be canonical (the trailing character is not inspected by the
library); at length 32, plain hexadecimal. Any other length is rejected. -/
def uuidParseOk (s : String) : Bool :=
  let cs := s.toList
  if cs.length == 36 then
    uuidCanonical cs
  else if cs.length == 45 then
    ((cs.take 9).map Char.toLower == ("urn:uuid:").toList) && uuidCanonical (cs.drop 9)
  else if cs.length == 38 then
    uuidCanonical ((cs.drop 1).take 36)
  else if cs.length == 32 then
    cs.all isHexDigit
  else
    false

/-- A response written to the `http.ResponseWriter` by the `responses`
helpers: `SendInternalServerError` writes status 500, `responses.Send` the
given status. -/
structure SentResponse where
  status : Nat
  body : String
  deriving DecidableEq

/-- Observable outcome of a handler helper: the messages it logged, the
responses it wrote, and its Go return value `(value, error)` with the error
message from `errors.New`. -/
structure HandlerResult (α : Type) where
  logged : List String
  sent : List SentResponse
  result : Except String α

/-- Embedding of `HTTPServer.readClusterName`: look up the `cluster` path
parameter; if absent, log and send an internal server error; if present but
not accepted by `uuid.Parse`, log and send an internal server error with the
message `Cluster name format is invalid`; otherwise return the name. -/
def readClusterName (vars : List (String × String)) : HandlerResult String :=
  match lookupVar vars ("cluster") with
  | none =>
    { logged := ["Cluster name is not provided"]
      sent := [{ status := 500, body := "Cluster name is not provided" }]
      result := Except.error ("Cluster name is not provided") }
  | some clusterName =>
    if uuidParseOk clusterName then
      { logged := [], sent := [], result := Except.ok clusterName }
    else
      { logged := ["Cluster name format is invalid"]
        sent := [{ status := 500, body := "Cluster name format is invalid" }]
        result := Except.error ("Cluster name format is invalid") }

/-- Embedding of `HTTPServer.readOrganizationID`: call
`GetRouterPositiveIntParam(request, "organization")`; on error, log a wrapped
message and choose the response status by the concrete type of the error
(400 for `RouterParsingError`, 500 otherwise), returning the wrapped message
as the error; on success return the value (the Go conversion
`types.OrgID(int(v))` is the identity at this level). -/
def readOrganizationID (vars : List (String × String)) : HandlerResult OrgID :=
  match GetRouterPositiveIntParam vars ("organization") with
  | Except.error err =>
    let status : Nat :=
      match err with
      | RouterError.parsingError _ _ _ => 400
      | _ => 500
    { logged := ["Error getting organization ID from request " ++ err.message]
      sent := [{ status := status, body := err.message }]
      result := Except.error ("Error getting organization ID from request " ++ err.message) }
  | Except.ok organizationID =>
    { logged := [], sent := [], result := Except.ok organizationID }

/-- A well-formed payload: a JSON object with all three required keys bound
to values of the expected types. -/
def wellFormedPayload : Payload :=
  Payload.json (Json.obj
    [("OrgID", Json.num 1),
     ("ClusterName", Json.str ("aaaaaaaa-bbbb-cccc-dddd-000000000000")),
     ("Report", Json.str ("report-data"))])

/-- A payload that decodes structurally but is missing the `ClusterName`
key. -/
def payloadMissingCluster : Payload :=
  Payload.json (Json.obj
    [("OrgID", Json.num 1),
     ("Report", Json.str ("report-data"))])

/-- C1: for every message whose payload decodes as a JSON object in which all
three keys `OrgID`, `ClusterName` and `Report` are bound (to an integer, a
string and a string), `ProcessMessage` calls the persist operation of the
storage sink exactly once, with exactly the three decoded values, and returns
no error exactly when the sink accepts the write (a sink error is propagated,
per the storage contract). -/
theorem claim_C1_process_message_persists_once
    (st : StorageModel) (p : Payload) (d : incomingMessage)
    (o : OrgID) (c r : String)
    (hu : unmarshalIncoming p = Except.ok d)
    (ho : d.Organization = some o) (hc : d.ClusterName = some c) (hr : d.Report = some r) :
    ProcessMessage st p =
      ([{ orgID := o, clusterName := c, report := r }],
        Option.map ConsumerError.storageError (st.writeResult o c r)) := by
  have hparse : parseMessage p = Except.ok (o, c, r) := by
    simp [parseMessage, hu, ho, hc, hr]
  cases hw : st.writeResult o c r with
  | none => simp [ProcessMessage, hparse, hw]
  | some e => simp [ProcessMessage, hparse, hw]

/-- Witness for C1 at a concrete well-formed payload and an accepting sink. -/
theorem claim_C1_witness :
    ProcessMessage stAccept wellFormedPayload =
      ([{ orgID := 1, clusterName := "aaaaaaaa-bbbb-cccc-dddd-000000000000",
          report := "report-data" }], none) := by
  have h := claim_C1_process_message_persists_once stAccept wellFormedPayload
    { Organization := some 1,
      ClusterName := some ("aaaaaaaa-bbbb-cccc-dddd-000000000000"),
      Report := some ("report-data") }
    1 ("aaaaaaaa-bbbb-cccc-dddd-000000000000") ("report-data") rfl rfl rfl rfl
  simpa [stAccept] using h

/-- C4: after a successful structural decode, a nil `OrgID` field yields the
validation error naming `OrgID`; with `OrgID` present, a nil `ClusterName`
yields the error naming `ClusterName`; with both present, a nil `Report`
yields the error naming `Report` — so the first missing field in the fixed
order determines the single reported error — and whenever any required field
is missing, persist is never called. -/
theorem claim_C4_missing_field_validation
    (st : StorageModel) (p : Payload) (d : incomingMessage)
    (hu : unmarshalIncoming p = Except.ok d) :
    (d.Organization = none →
      parseMessage p = Except.error (ConsumerError.missingAttribute ("OrgID"))) ∧
    (d.Organization ≠ none → d.ClusterName = none →
      parseMessage p = Except.error (ConsumerError.missingAttribute ("ClusterName"))) ∧
    (d.Organization ≠ none → d.ClusterName ≠ none → d.Report = none →
      parseMessage p = Except.error (ConsumerError.missingAttribute ("Report"))) ∧
    ((d.Organization = none ∨ d.ClusterName = none ∨ d.Report = none) →
      (ProcessMessage st p).1 = []) := by
  refine ⟨?_, ?_, ?_, ?_⟩
  · intro ho
    simp [parseMessage, hu, ho]
  · intro ho hc
    obtain ⟨o, ho2⟩ := Option.ne_none_iff_exists'.mp ho
    simp [parseMessage, hu, ho2, hc]
  · intro ho hc hr
    obtain ⟨o, ho2⟩ := Option.ne_none_iff_exists'.mp ho
    obtain ⟨c, hc2⟩ := Option.ne_none_iff_exists'.mp hc
    simp [parseMessage, hu, ho2, hc2, hr]
  · intro hmiss
    rcases hmiss with h | h | h
    · simp [ProcessMessage, parseMessage, hu, h]
    · cases ho : d.Organization <;> simp [ProcessMessage, parseMessage, hu, ho, h]
    · cases ho : d.Organization <;> cases hc : d.ClusterName <;>
        simp [ProcessMessage, parseMessage, hu, ho, hc, h]

/-- Witness for C4 at a payload whose object is missing only `ClusterName`. -/
theorem claim_C4_witness :
    parseMessage payloadMissingCluster =
      Except.error (ConsumerError.missingAttribute ("ClusterName")) ∧
    (ProcessMessage stAccept payloadMissingCluster).1 = [] := by
  have h := claim_C4_missing_field_validation stAccept payloadMissingCluster
    { Organization := some 1, ClusterName := none, Report := some ("report-data") } rfl
  exact ⟨h.2.1 (by simp) rfl, h.2.2.2 (Or.inr (Or.inl rfl))⟩

/-- C5 counterexample: the payload consisting of the JSON literal `null` does
not parse as a JSON object, yet `parseMessage` does not return a decode
error for it: `json.Unmarshal` accepts a top-level `null` without error and
leaves every field nil, so the field-presence check runs and reports the
validation error naming `OrgID` (persist is still never called). -/
theorem claim_C5_counterexample :
    parseMessage (Payload.json Json.null) =
      Except.error (ConsumerError.missingAttribute ("OrgID")) ∧
    (ProcessMessage stAccept (Payload.json Json.null)).1 = [] :=
  ⟨rfl, rfl⟩

/-- C5 (amended): for every payload on which the structural decode fails —
bytes that are not JSON, or a top-level value other than an object or the
literal `null`, or a key of the three bound to a value of the wrong type —
`parseMessage` returns that decode error before any field-presence check and
`ProcessMessage` makes no persist call. -/
theorem claim_C5_decode_error_no_persist
    (st : StorageModel) (p : Payload) (e : UnmarshalError)
    (hu : unmarshalIncoming p = Except.error e) :
    parseMessage p = Except.error (ConsumerError.unmarshalError e) ∧
    ProcessMessage st p = ([], some (ConsumerError.unmarshalError e)) := by
  have hp : parseMessage p = Except.error (ConsumerError.unmarshalError e) := by
    simp [parseMessage, hu]
  exact ⟨hp, by simp [ProcessMessage, hp]⟩

/-- Witness for C5 (amended) at the malformed-bytes payload. -/
theorem claim_C5_witness :
    parseMessage Payload.malformed =
      Except.error (ConsumerError.unmarshalError UnmarshalError.syntaxError) ∧
    ProcessMessage stAccept Payload.malformed =
      ([], some (ConsumerError.unmarshalError UnmarshalError.syntaxError)) :=
  claim_C5_decode_error_no_persist stAccept Payload.malformed UnmarshalError.syntaxError rfl

/-- C2: the spec requires construction to fail with a transport error and
abort in full when the topic has no partitions, and the claim adds that the
error branch is taken rather than any out-of-bounds access when the partition
list is empty; evaluating `New` at a broker behaviour whose partition
enumeration returns an empty list with no error shows the code instead hits
the unguarded index `partitions[0]` and panics — no error branch is taken and
no consumer is produced — while the same condition reported as an enumeration
error is propagated as the spec intends. -/
theorem claim_C2_new_empty_partitions_panics :
    New brokerEmptyPartitions = NewOutcome.panicked ∧
    (New brokerEmptyPartitions).isErrorReturn = false ∧
    New brokerPartitionsError = NewOutcome.err ("topic metadata error") :=
  ⟨rfl, rfl, rfl⟩

/-- The loop of `Start` over delivered messages, started from any state:
every message is processed, every processing error is appended to the log,
every persist call is recorded, the `consumed` counter advances once per
message, and the loop is still running afterwards. -/
theorem StartFrom_messages (st : StorageModel) (msgs : List Payload) :
    ∀ s : LoopState,
      StartFrom st s (msgs.map StreamEvent.msg) =
        StartOutcome.running
          { loggedErrors := s.loggedErrors ++ msgs.filterMap (fun p => (ProcessMessage st p).2)
            persists := s.persists ++ (msgs.map (fun p => (ProcessMessage st p).1)).flatten
            consumed := s.consumed + msgs.length } := by
  induction msgs with
  | nil => intro s; simp [StartFrom]
  | cons p rest ih =>
    intro s
    rw [List.map_cons]
    rw [StartFrom, ih]
    cases h2 : (ProcessMessage st p).2 <;>
      simp [stepState, h2, List.filterMap_cons, List.flatten, List.append_assoc,
        Nat.add_assoc, Nat.add_comm 1 rest.length]

/-- No finite prefix of channel events makes `StartFrom` produce a return:
the loop body has no return statement. -/
theorem StartFrom_never_returns (st : StorageModel) (events : List StreamEvent) :
    ∀ s : LoopState, (StartFrom st s events).isReturned = false := by
  induction events with
  | nil => intro s; rfl
  | cons ev rest ih =>
    intro s
    cases ev with
    | msg p => rw [StartFrom]; exact ih _
    | closed => rfl

/-- C3 (amended): every error returned by `ProcessMessage` is logged and the
loop proceeds to the next message — over any finite sequence of delivered
messages, all of them are consumed, the processing errors are exactly the
logged ones, and the loop is still running — but `Start` never returns at
all: the loop has no exit, and when the subscription fails at the transport
level (the message channel closes), the next iteration dereferences a nil
message and panics instead of returning. -/
theorem claim_C3_start_never_returns (st : StorageModel)
    (msgs : List Payload) (events : List StreamEvent) :
    Start st (msgs.map StreamEvent.msg) =
      StartOutcome.running
        { loggedErrors := msgs.filterMap (fun p => (ProcessMessage st p).2)
          persists := (msgs.map (fun p => (ProcessMessage st p).1)).flatten
          consumed := msgs.length } ∧
    (Start st events).isReturned = false ∧
    (Start st (events ++ [StreamEvent.closed])).isReturned = false := by
  refine ⟨?_, StartFrom_never_returns st events _, StartFrom_never_returns st _ _⟩
  have h := StartFrom_messages st msgs { loggedErrors := [], persists := [], consumed := 0 }
  simpa [Start] using h

/-- C3 counterexample: a transport-level failure of the subscription read
(the message channel closes) does not make `Start` return — the receive
yields a nil message and the next `ProcessMessage` call panics dereferencing
it — refuting the claim that `Start` returns exactly on transport failure. -/
theorem claim_C3_counterexample :
    Start stAccept [StreamEvent.closed] =
      StartOutcome.panicked { loggedErrors := [], persists := [], consumed := 0 } ∧
    (Start stAccept [StreamEvent.closed]).isReturned = false :=
  ⟨rfl, rfl⟩

/-- C6: `Close` closes the partition subscription first; if that close fails,
its error is returned at once and the broker-connection close is never
attempted (the trace stops at the subscription); only when it succeeds is the
connection closed, in that order, with the connection result returned. -/
theorem claim_C6_close_ordering (b : CloseBehavior) (e : String) :
    (b.partitionConsumerCloseError = some e →
      Close b = ([CloseTarget.partitionConsumer], some e)) ∧
    (b.partitionConsumerCloseError = none →
      Close b = ([CloseTarget.partitionConsumer, CloseTarget.consumerConnection],
        b.consumerCloseError)) := by
  constructor
  · intro h
    simp [Close, h]
  · intro h
    simp [Close, h]

/-- Witness for C6 at a behaviour whose subscription close fails: only the
subscription close is attempted and its error is returned. -/
theorem claim_C6_witness :
    Close closeBehaviorFailingSub =
      ([CloseTarget.partitionConsumer], some ("subscription close failed")) :=
  (claim_C6_close_ordering closeBehaviorFailingSub ("subscription close failed")).1 rfl

/-- C7: `GetRouterPositiveIntParam` on the value `42` returns 42; on `0` and
on `-5` it fails with a `RouterParsingError` carrying the parameter name, a
value rendering exactly as the offending text, and the reason
`positive integer expected`; on `abc` it fails with a `RouterParsingError`
carrying the raw string and the reason `integer expected`. -/
theorem claim_C7_positive_int_param :
    GetRouterPositiveIntParam [("organization", "42")] ("organization") = Except.ok 42 ∧
    GetRouterPositiveIntParam [("organization", "0")] ("organization") =
      Except.error (RouterError.parsingError ("organization") (ParamValue.int 0)
        ("positive integer expected")) ∧
    GetRouterPositiveIntParam [("organization", "-5")] ("organization") =
      Except.error (RouterError.parsingError ("organization") (ParamValue.int (-5))
        ("positive integer expected")) ∧
    GetRouterPositiveIntParam [("organization", "abc")] ("organization") =
      Except.error (RouterError.parsingError ("organization") (ParamValue.str ("abc"))
        ("integer expected")) ∧
    ParamValue.render (ParamValue.int 0) = "0" ∧
    ParamValue.render (ParamValue.int (-5)) = "-5" :=
  ⟨rfl, rfl, rfl, rfl, rfl, rfl⟩

/-- C8: when the `cluster` path parameter is present but `uuid.Parse` rejects
it, `readClusterName` logs `Cluster name format is invalid` and sends only a
500 response (never a 400), returning that message as its error; when the
parameter is absent it likewise logs and sends only a 500 response. -/
theorem claim_C8_cluster_name_500
    (vars : List (String × String)) (v : String) :
    (lookupVar vars ("cluster") = some v → uuidParseOk v = false →
      readClusterName vars =
        { logged := ["Cluster name format is invalid"]
          sent := [{ status := 500, body := "Cluster name format is invalid" }]
          result := Except.error ("Cluster name format is invalid") }) ∧
    (lookupVar vars ("cluster") = none →
      readClusterName vars =
        { logged := ["Cluster name is not provided"]
          sent := [{ status := 500, body := "Cluster name is not provided" }]
          result := Except.error ("Cluster name is not provided") }) := by
  constructor
  · intro hfound hbad
    simp [readClusterName, hfound, hbad]
  · intro habsent
    simp [readClusterName, habsent]

/-- Witness for C8 at a present non-UUID value and at an absent parameter. -/
theorem claim_C8_witness :
    readClusterName [("cluster", "not-a-uuid")] =
      { logged := ["Cluster name format is invalid"]
        sent := [{ status := 500, body := "Cluster name format is invalid" }]
        result := Except.error ("Cluster name format is invalid") } ∧
    readClusterName [] =
      { logged := ["Cluster name is not provided"]
        sent := [{ status := 500, body := "Cluster name is not provided" }]
        result := Except.error ("Cluster name is not provided") } :=
  ⟨(claim_C8_cluster_name_500 [("cluster", "not-a-uuid")] ("not-a-uuid")).1 rfl rfl,
   (claim_C8_cluster_name_500 [] ("unused")).2 rfl⟩

/-- C9: `readOrganizationID` selects the failure class by the kind of the
error from `GetRouterPositiveIntParam("organization")`: a `RouterParsingError`
produces a 400 response carrying the error text, while a missing-parameter
error (the only other kind) produces a 500 response; in both cases the
wrapped message is logged and returned as the error. -/
theorem claim_C9_org_id_status_by_error_kind
    (vars : List (String × String)) (name : String) (val : ParamValue) (es : String) :
    (GetRouterPositiveIntParam vars ("organization") =
        Except.error (RouterError.parsingError name val es) →
      readOrganizationID vars =
        { logged := ["Error getting organization ID from request " ++
            (RouterError.parsingError name val es).message]
          sent := [{ status := 400, body := (RouterError.parsingError name val es).message }]
          result := Except.error ("Error getting organization ID from request " ++
            (RouterError.parsingError name val es).message) }) ∧
    (GetRouterPositiveIntParam vars ("organization") =
        Except.error (RouterError.missingParam name) →
      readOrganizationID vars =
        { logged := ["Error getting organization ID from request " ++
            (RouterError.missingParam name).message]
          sent := [{ status := 500, body := (RouterError.missingParam name).message }]
          result := Except.error ("Error getting organization ID from request " ++
            (RouterError.missingParam name).message) }) := by
  constructor
  · intro h
    simp [readOrganizationID, h]
  · intro h
    simp [readOrganizationID, h]

/-- The parsing error produced for the organization value `abc`. -/
def orgParseErrAbc : RouterError :=
  RouterError.parsingError ("organization") (ParamValue.str ("abc")) ("integer expected")

/-- The missing-parameter error for the organization parameter. -/
def orgMissingErr : RouterError := RouterError.missingParam ("organization")

/-- Witness for C9: a non-integer value yields the 400 response, an absent
parameter yields the 500 response. -/
theorem claim_C9_witness :
    readOrganizationID [("organization", "abc")] =
      { logged := ["Error getting organization ID from request " ++ orgParseErrAbc.message]
        sent := [{ status := 400, body := orgParseErrAbc.message }]
        result := Except.error ("Error getting organization ID from request " ++
          orgParseErrAbc.message) } ∧
    readOrganizationID [] =
      { logged := ["Error getting organization ID from request " ++ orgMissingErr.message]
        sent := [{ status := 500, body := orgMissingErr.message }]
        result := Except.error ("Error getting organization ID from request " ++
          orgMissingErr.message) } :=
  ⟨(claim_C9_org_id_status_by_error_kind [("organization", "abc")] ("organization")
      (ParamValue.str ("abc")) ("integer expected")).1 rfl,
   (claim_C9_org_id_status_by_error_kind [] ("organization")
      (ParamValue.str ("unused")) ("unused")).2 rfl⟩
